import Mathlib

/-!
Shallow embedding of `scripts/fetch_stats.py` (note-stats-tracker):
the incremental data-collection and reconciliation pipeline.

Modelling conventions:
* JSON envelopes are structures with `Option` fields for possibly-missing keys.
* `sys.exit` is modelled by `Option`/`Except`: a `none` / `.error` result means
  the process terminated.
* CSV cells are `String`s; a parsed CSV row is an association list from column
  name to cell (the view `csv.DictReader` provides), except for the follower
  history where rows are kept as positional cell lists.
* Calendar arithmetic is carried out on proleptic-Gregorian ordinals, matching
  Python's `datetime` day subtraction.
* Python `float` arithmetic on the summary metrics is modelled over `ℚ`;
  the claims under scrutiny concern division guards and reference-row
  selection, which do not depend on binary rounding.
-/

namespace NoteStats

/-! ### Article Collector (`fetch_all_articles`, lines 167-192) -/

/-- One element of the `note_stats` array of the paginated stats endpoint. -/
structure Note where
  id : Int
  key : String
  name : String
  read_count : Int
  like_count : Int
  comment_count : Int
  deriving DecidableEq

/-- The `data` object of one page envelope: `note_stats` plus running totals
and the `last_page` indicator (`none` models an absent key). -/
structure PageData where
  note_stats : List Note
  total_pv : Int
  total_like : Int
  total_comment : Int
  last_page : Option Bool
  deriving DecidableEq

/-- One response envelope of the stats endpoint; `data = none` models a body
in which `"data"` or `"note_stats"` is missing. -/
structure Env where
  data : Option PageData
  deriving DecidableEq

/-- Loop body of `fetch_all_articles`: consume page envelopes in order,
accumulating `note_stats`; stop when `stats.get("last_page", True)` is truthy,
returning the accumulated notes and the totals of the envelope the loop
stopped on (`stats` holds the page fetched last).  `none` models `sys.exit`
on a malformed envelope, or a run that never observes a terminal envelope. -/
def fetchAllArticlesAux : List Env → List Note → Option (List Note × Int × Int × Int)
  | [], _ => none
  | e :: rest, acc =>
    match e.data with
    | none => none
    | some stats =>
      let acc := acc ++ stats.note_stats
      if stats.last_page.getD true then
        some (acc, stats.total_pv, stats.total_like, stats.total_comment)
      else fetchAllArticlesAux rest acc

/-- `fetch_all_articles`, as a function of the sequence of page envelopes the
server would return for pages 1, 2, ... -/
def fetch_all_articles (pages : List Env) : Option (List Note × Int × Int × Int) :=
  fetchAllArticlesAux pages []

/-- The `note_stats` list of an envelope (empty when the data object is absent). -/
def notesOf (e : Env) : List Note :=
  (e.data.map PageData.note_stats).getD []

/-- An envelope is a continuation page when it is well-formed and carries an
explicit `last_page: false`. -/
def isContinuation (e : Env) : Prop :=
  ∃ s, e.data = some s ∧ s.last_page = some false

theorem fetchAllArticlesAux_append (front : List Env) (rest : List Env)
    (acc : List Note) (hfront : ∀ p ∈ front, isContinuation p) :
    fetchAllArticlesAux (front ++ rest) acc
      = fetchAllArticlesAux rest (acc ++ front.flatMap notesOf) := by
  induction front generalizing acc with
  | nil => simp [List.flatMap]
  | cons e front ih =>
    obtain ⟨s, hdata, hlast⟩ := hfront e (List.mem_cons_self ..)
    simp only [List.cons_append, fetchAllArticlesAux, hdata, hlast, Option.getD_some,
      Bool.false_eq_true, if_false, List.append_eq]
    rw [ih (acc ++ s.note_stats) (fun p hp => hfront p (List.mem_cons_of_mem _ hp))]
    simp [notesOf, hdata, List.flatMap]

/-- A two-page exchange whose running totals differ between the pages. -/
def pageOne : PageData :=
  { note_stats := [], total_pv := 100, total_like := 10, total_comment := 1,
    last_page := some false }

/-- Second page of the exchange, marked as the last page. -/
def pageTwo : PageData :=
  { note_stats := [], total_pv := 200, total_like := 20, total_comment := 2,
    last_page := some true }

/-- C1 (counterexample): on a two-page exchange whose envelopes report
different totals, `fetch_all_articles` returns the totals of page 2, not the
totals reported on page 1's envelope — the claim that the returned totals
equal page 1's totals is false. -/
theorem totals_not_from_first_page :
    fetch_all_articles [⟨some pageOne⟩, ⟨some pageTwo⟩]
        = some ([], pageTwo.total_pv, pageTwo.total_like, pageTwo.total_comment)
      ∧ pageTwo.total_pv ≠ pageOne.total_pv := by
  decide

/-- C1 (amended): `fetch_all_articles` returns the concatenated article list
of all fetched pages together with the totals taken from the envelope of the
LAST fetched page (the page on which the loop stopped), for every sequence of
page envelopes. -/
theorem totals_from_last_fetched_page (front rest : List Env) (e : Env)
    (s : PageData) (hfront : ∀ p ∈ front, isContinuation p)
    (hdata : e.data = some s) (hstop : s.last_page.getD true = true) :
    fetch_all_articles (front ++ e :: rest)
      = some (front.flatMap notesOf ++ s.note_stats,
              s.total_pv, s.total_like, s.total_comment) := by
  unfold fetch_all_articles
  rw [fetchAllArticlesAux_append front (e :: rest) [] hfront]
  simp [fetchAllArticlesAux, hdata, hstop]

/-- Witness for `totals_from_last_fetched_page` at a concrete two-page
exchange. -/
theorem totals_from_last_fetched_page_witness :
    fetch_all_articles [⟨some pageOne⟩, ⟨some pageTwo⟩]
      = some ([pageOne, pageTwo].flatMap (fun s => Env.mk (some s) |> notesOf)
                ++ pageTwo.note_stats,
              pageTwo.total_pv, pageTwo.total_like, pageTwo.total_comment) := by
  have h := totals_from_last_fetched_page [⟨some pageOne⟩] [] ⟨some pageTwo⟩
    pageTwo (by intro p hp; simp at hp; exact ⟨pageOne, by simp [hp], rfl⟩)
    rfl rfl
  simpa using h

/-- C10: pagination always stops on an envelope whose `last_page` key is
absent: for every run consisting of well-formed continuation pages (explicit
`last_page: false`) followed by a page `e` whose envelope lacks `last_page`,
the collector succeeds having consumed exactly the pages up to and including
`e` — the result does not depend on any later page. -/
theorem pagination_stops_on_missing_last_page (front rest : List Env)
    (e : Env) (s : PageData) (hfront : ∀ p ∈ front, isContinuation p)
    (hdata : e.data = some s) (hmiss : s.last_page = none) :
    fetch_all_articles (front ++ e :: rest)
      = some (front.flatMap notesOf ++ s.note_stats,
              s.total_pv, s.total_like, s.total_comment) := by
  unfold fetch_all_articles
  rw [fetchAllArticlesAux_append front (e :: rest) [] hfront]
  simp [fetchAllArticlesAux, hdata, hmiss]

/-- A continuation page for the `C10` witness run. -/
def contPage : PageData :=
  { note_stats := [], total_pv := 7, total_like := 3, total_comment := 0,
    last_page := some false }

/-- A page whose envelope lacks the `last_page` key, for the `C10` witness. -/
def noFlagPage : PageData :=
  { note_stats := [], total_pv := 9, total_like := 4, total_comment := 1,
    last_page := none }

/-- Witness for `pagination_stops_on_missing_last_page`: a concrete run with
one continuation page, then a page without the `last_page` key, then a further
page that is provably never consumed. -/
theorem pagination_stops_on_missing_last_page_witness :
    fetch_all_articles [⟨some contPage⟩, ⟨some noFlagPage⟩, ⟨some contPage⟩]
      = some ([⟨some contPage⟩].flatMap notesOf ++ noFlagPage.note_stats,
              noFlagPage.total_pv, noFlagPage.total_like,
              noFlagPage.total_comment) := by
  have h := pagination_stops_on_missing_last_page [⟨some contPage⟩]
    [⟨some contPage⟩] ⟨some noFlagPage⟩ noFlagPage
    (by intro p hp; simp at hp; exact ⟨contPage, by simp [hp], rfl⟩)
    rfl rfl
  simpa using h

/-! ### API client (`fetch_api`, lines 154-164; `fetch_follower_count`,
lines 195-203) -/

/-- Outcome of one HTTP request, as seen by `fetch_api`'s `try` block:
a parsed body, an `HTTPError` with a status code, or a `URLError`. -/
inductive ApiOutcome (α : Type) where
  | success (body : α)
  | httpError (code : Nat)
  | urlError
  deriving DecidableEq

/-- `fetch_api`: returns the parsed body, and calls `sys.exit` (modelled as
`.error` with the diagnostic) on any `HTTPError` or `URLError`. -/
def fetch_api {α : Type} : ApiOutcome α → Except String α
  | .success body => .ok body
  | .httpError code =>
    if code = 401 ∨ code = 403 then .error "認証エラー" else .error "HTTP エラー"
  | .urlError => .error "通信エラー"

/-- The creators endpoint body, reduced to the one field the code reads:
`data.get("data", {}).get("followerCount")` (`none` when either key is
absent). -/
structure CreatorBody where
  followerCount : Option Int
  deriving DecidableEq

/-- `fetch_follower_count`: `None` without a request when `NOTE_USERNAME` is
empty; otherwise issues the request through `fetch_api` (which exits the
process on any request error) and reads `followerCount`. -/
def fetch_follower_count (username : String)
    (outcome : ApiOutcome CreatorBody) : Except String (Option Int) :=
  if username = "" then .ok none
  else (fetch_api outcome).map CreatorBody.followerCount

/-- C2 (counterexample): with a configured username, an HTTP 500 error on the
follower-profile request makes `fetch_follower_count` terminate the process
(`fetch_api` exits) instead of returning the unknown value `None` — the claim
that every error outcome is non-fatal is false. -/
theorem follower_count_exits_on_http_error :
    fetch_follower_count "user" (.httpError 500) = .error "HTTP エラー"
      ∧ fetch_follower_count "user" (.httpError 500) ≠ .ok none :=
  ⟨rfl, fun h => Except.noConfusion h⟩

/-- C2 (amended): `fetch_follower_count` returns `None` without any request
when the username configuration is absent, and returns the body's
`followerCount` field (possibly `None`) on a successful response; but when
the username is configured, every transport error and every HTTP error status
of the follower-profile request terminates the process via `fetch_api`. -/
theorem follower_count_error_behaviour (username : String)
    (hu : username ≠ "") :
    (∀ o : ApiOutcome CreatorBody, fetch_follower_count "" o = .ok none)
      ∧ (∀ b, fetch_follower_count username (.success b) = .ok b.followerCount)
      ∧ (∀ code, ∃ msg,
          fetch_follower_count username (.httpError code) = .error msg)
      ∧ (∃ msg, fetch_follower_count username .urlError = .error msg) := by
  refine ⟨fun o => rfl,
    fun b => by simp [fetch_follower_count, hu, fetch_api, Except.map],
    fun code => ?_, ?_⟩
  · by_cases h : code = 401 ∨ code = 403
    · exact ⟨"認証エラー",
        by simp [fetch_follower_count, hu, fetch_api, h, Except.map]⟩
    · exact ⟨"HTTP エラー",
        by simp [fetch_follower_count, hu, fetch_api, h, Except.map]⟩
  · exact ⟨"通信エラー",
      by simp [fetch_follower_count, hu, fetch_api, Except.map]⟩

/-- Witness for `follower_count_error_behaviour` at the concrete username
`"user"`. -/
theorem follower_count_error_behaviour_witness :
    fetch_follower_count "" (.httpError 500) = .ok none
      ∧ fetch_follower_count "user" (.success ⟨some 120⟩) = .ok (some 120) := by
  have h := follower_count_error_behaviour "user" (by decide)
  exact ⟨h.1 (.httpError 500), h.2.1 ⟨some 120⟩⟩

/-! ### Calendar dates

`datetime.strptime(s, "%Y-%m-%d")` followed by datetime subtraction, whose
`.days` is the difference of proleptic-Gregorian ordinals.  The parser models
the canonical zero-padded `YYYY-MM-DD` form, the only form this program ever
writes (`strftime("%Y-%m-%d")`); every other string is a parse failure
(`ValueError`). -/

/-- Gregorian leap-year rule. -/
def isLeapYear (y : Nat) : Bool :=
  (y % 4 == 0 && y % 100 != 0) || y % 400 == 0

/-- Length of month `m` (1-based) in year `y`. -/
def daysInMonth (y m : Nat) : Nat :=
  if m = 2 then (if isLeapYear y then 29 else 28)
  else if m = 4 ∨ m = 6 ∨ m = 9 ∨ m = 11 then 30
  else 31

/-- Days in year `y` strictly before month `m` (1-based). -/
def daysBeforeMonth (y m : Nat) : Nat :=
  (List.range (m - 1)).foldl (fun acc i => acc + daysInMonth y (i + 1)) 0

/-- Proleptic-Gregorian ordinal of a date (day 1 = 0001-01-01), as in
Python's `date.toordinal`; datetime subtraction's `.days` equals the
difference of ordinals. -/
def toOrdinal (y m d : Nat) : Nat :=
  365 * (y - 1) + (y - 1) / 4 - (y - 1) / 100 + (y - 1) / 400
    + daysBeforeMonth y m + d

/-- Decimal value of a digit character. -/
def digitVal (c : Char) : Option Nat :=
  if c.isDigit then some (c.toNat - 48) else none

/-- `datetime.strptime(s, "%Y-%m-%d")` on the canonical zero-padded form:
`none` models `ValueError`. -/
def parseYmd (s : String) : Option (Nat × Nat × Nat) :=
  match s.toList with
  | [y1, y2, y3, y4, c1, m1, m2, c2, d1, d2] =>
    if c1 = '-' ∧ c2 = '-' then do
      let a ← digitVal y1
      let b ← digitVal y2
      let c ← digitVal y3
      let d ← digitVal y4
      let e ← digitVal m1
      let f ← digitVal m2
      let g ← digitVal d1
      let h ← digitVal d2
      let y := ((a * 10 + b) * 10 + c) * 10 + d
      let m := e * 10 + f
      let dd := g * 10 + h
      if 1 ≤ y ∧ 1 ≤ m ∧ m ≤ 12 ∧ 1 ≤ dd ∧ dd ≤ daysInMonth y m then
        some (y, m, dd)
      else none
    else none
  | _ => none

/-- Parse a date string and return its proleptic-Gregorian ordinal. -/
def dateOrdinal (s : String) : Option Nat :=
  (parseYmd s).map (fun t => toOrdinal t.1 t.2.1 t.2.2)

/-! ### Metadata cache (`load_dates_cache`, lines 213-230; `_is_cache_stale`,
lines 239-246) -/

/-- A structured cache entry; a key missing from the stored JSON object is
read back as the empty string (`entry.get(..., "")`). -/
structure CacheEntry where
  published_at : String
  created_at : String
  updated_at : String
  fetched_at : String
  deriving DecidableEq

/-- One persisted cache value: either the legacy shape (a bare string) or the
structured entry. -/
inductive CacheVal where
  | str (s : String)
  | obj (e : CacheEntry)
  deriving DecidableEq

/-- The migration applied to each value by `load_dates_cache`: a bare string
becomes `{published_at: s, created_at: "", updated_at: "", fetched_at: ""}`;
a structured value is kept as-is. -/
def migrateVal : CacheVal → CacheEntry
  | .str s => { published_at := s, created_at := "", updated_at := "", fetched_at := "" }
  | .obj e => e

/-- `load_dates_cache` on a successfully parsed document: each value is
migrated in place, keys unchanged. -/
def load_dates_cache (raw : List (String × CacheVal)) : List (String × CacheEntry) :=
  raw.map (fun kv => (kv.1, migrateVal kv.2))

/-- `_is_cache_stale`: an empty (or missing) `fetched_at` is stale; otherwise
parse both dates and compare the day difference with 7; a `ValueError` on
either parse is stale. -/
def is_cache_stale (entry : CacheEntry) (today_str : String) : Bool :=
  if entry.fetched_at = "" then true
  else
    match dateOrdinal today_str, dateOrdinal entry.fetched_at with
    | some t, some f => (t : Int) - (f : Int) ≥ 7
    | _, _ => true

/-- C5: staleness is exact calendar-day arithmetic — an entry with empty
(missing) `fetched_at` is stale, and an entry whose `fetched_at` parses is
stale exactly when today's ordinal minus the fetch ordinal is at least 7
days. -/
theorem cache_staleness (entry : CacheEntry) (today_str : String) :
    (entry.fetched_at = "" → is_cache_stale entry today_str = true)
      ∧ (∀ t f : Nat, dateOrdinal today_str = some t →
          dateOrdinal entry.fetched_at = some f →
          (is_cache_stale entry today_str = true ↔ (t : Int) - (f : Int) ≥ 7)) := by
  constructor
  · intro h
    simp [is_cache_stale, h]
  · intro t f ht hf
    have hne : entry.fetched_at ≠ "" := by
      intro h
      rw [h] at hf
      simp [dateOrdinal, parseYmd] at hf
    simp [is_cache_stale, hne, ht, hf]

/-- Witness for `cache_staleness`: against today 2024-01-08, an entry fetched
on 2024-01-01 (7 days earlier) is stale, and one fetched on 2024-01-02
(6 days earlier) is fresh. -/
theorem cache_staleness_witness :
    is_cache_stale ⟨"", "", "", "2024-01-01"⟩ "2024-01-08" = true
      ∧ is_cache_stale ⟨"", "", "", "2024-01-02"⟩ "2024-01-08" = false := by
  have h7 := (cache_staleness ⟨"", "", "", "2024-01-01"⟩ "2024-01-08").2
    (toOrdinal 2024 1 8) (toOrdinal 2024 1 1) (by decide) (by decide)
  have h6 := (cache_staleness ⟨"", "", "", "2024-01-02"⟩ "2024-01-08").2
    (toOrdinal 2024 1 8) (toOrdinal 2024 1 2) (by decide) (by decide)
  refine ⟨h7.mpr (by decide), ?_⟩
  have : ¬ is_cache_stale ⟨"", "", "", "2024-01-02"⟩ "2024-01-08" = true := by
    rw [h6]; decide
  simpa using this

/-- C6: legacy cache migration — a bare-string value `s` under key `k` loads
as the structured entry with `published_at = s` and the other fields empty,
that migrated entry is classified stale for every run date, and a structured
value loads unchanged. -/
theorem legacy_cache_migration (raw : List (String × CacheVal)) (k s : String)
    (e : CacheEntry) (today_str : String) :
    ((k, CacheVal.str s) ∈ raw →
        (k, ({ published_at := s, created_at := "", updated_at := "",
               fetched_at := "" } : CacheEntry)) ∈ load_dates_cache raw
          ∧ is_cache_stale
              { published_at := s, created_at := "", updated_at := "",
                fetched_at := "" } today_str = true)
      ∧ ((k, CacheVal.obj e) ∈ raw → (k, e) ∈ load_dates_cache raw) := by
  constructor
  · intro hmem
    refine ⟨?_, by simp [is_cache_stale]⟩
    exact List.mem_map.mpr ⟨(k, CacheVal.str s), hmem, rfl⟩
  · intro hmem
    exact List.mem_map.mpr ⟨(k, CacheVal.obj e), hmem, rfl⟩

/-- Witness for `legacy_cache_migration` on a one-entry legacy document. -/
theorem legacy_cache_migration_witness :
    (("n1", ({ published_at := "2024-01-01T00:00:00+09:00", created_at := "",
               updated_at := "", fetched_at := "" } : CacheEntry))
        ∈ load_dates_cache [("n1", CacheVal.str "2024-01-01T00:00:00+09:00")])
      ∧ is_cache_stale
          { published_at := "2024-01-01T00:00:00+09:00", created_at := "",
            updated_at := "", fetched_at := "" } "2024-06-01" = true :=
  (legacy_cache_migration [("n1", CacheVal.str "2024-01-01T00:00:00+09:00")]
    "n1" "2024-01-01T00:00:00+09:00"
    ⟨"", "", "", ""⟩ "2024-06-01").1 (List.mem_singleton.mpr rfl)

/-! ### CSV reconciliation (`_read_csv_keep_except`, lines 314-333;
`save_articles_csv`, lines 336-365) -/

/-- The eleven-column schema of the articles-history file. -/
def ARTICLES_HEADER : List String :=
  ["date", "note_id", "key", "title", "published_at", "created_at",
   "updated_at", "age_days", "read_count", "like_count", "comment_count"]

/-- A parsed CSV row, as `csv.DictReader` presents it: an association list
from column name to cell. -/
abbrev Row := List (String × String)

/-- `row.get(k, "")`: the cell under column `k`, empty when absent. -/
def rget (r : Row) (k : String) : String :=
  ((r.find? (fun p => p.1 == k)).map Prod.snd).getD ""

/-- A stored CSV file: its header row and its data rows. -/
structure CsvFile where
  header : List String
  rows : List Row
  deriving DecidableEq

/-- `_read_csv_keep_except`: rows of the file whose `date_col` cell differs
from `skip_date`, plus a header-validity flag; an absent file, or a header
without `date_col`, yields `([], false)`. -/
def read_csv_keep_except (file : Option CsvFile) (skip_date : String)
    (date_col : String) : List Row × Bool :=
  match file with
  | none => ([], false)
  | some f =>
    if date_col ∈ f.header then
      (f.rows.filter (fun r => rget r date_col != skip_date), true)
    else ([], false)

/-- `{k: row.get(k, "") for k in hdr}` as `csv.DictWriter` receives it: the
row restricted and reordered to the header, missing cells filled empty. -/
def normalizeRow (hdr : List String) (r : Row) : Row :=
  hdr.map (fun k => (k, rget r k))

/-- An article as consumed by `save_articles_csv` after date enrichment:
the mandatory stats fields plus the (possibly unresolved) timestamp fields
and age. -/
structure EnrichedNote where
  id : Int
  key : String
  name : String
  published_at : String
  created_at : String
  updated_at : String
  age_days : Option Int
  read_count : Int
  like_count : Int
  comment_count : Int
  deriving DecidableEq

/-- `age_days` as written to CSV: the integer's decimal form, or empty when
unknown. -/
def ageStr : Option Int → String
  | none => ""
  | some n => toString n

/-- The row `save_articles_csv` writes for one article on day `today`. -/
def freshRow (today : String) (n : EnrichedNote) : Row :=
  [("date", today), ("note_id", toString n.id), ("key", n.key),
   ("title", n.name), ("published_at", n.published_at),
   ("created_at", n.created_at), ("updated_at", n.updated_at),
   ("age_days", ageStr n.age_days), ("read_count", toString n.read_count),
   ("like_count", toString n.like_count),
   ("comment_count", toString n.comment_count)]

/-- `save_articles_csv`: keep existing rows of other days (normalised to the
schema), then append today's fresh rows; the rewritten file carries
`ARTICLES_HEADER`. -/
def save_articles_csv (today : String) (articles : List EnrichedNote)
    (file : Option CsvFile) : CsvFile :=
  { header := ARTICLES_HEADER,
    rows := ((read_csv_keep_except file today "date").1).map
        (normalizeRow ARTICLES_HEADER)
      ++ articles.map (freshRow today) }

theorem rget_normalizeRow (hdr : List String) (r : Row) (k : String)
    (hk : k ∈ hdr) : rget (normalizeRow hdr r) k = rget r k := by
  induction hdr with
  | nil => cases hk
  | cons h t ih =>
    by_cases hhk : h = k
    · subst hhk
      simp [normalizeRow, rget, List.find?]
    · have hkt : k ∈ t := by
        rcases List.mem_cons.mp hk with h1 | h1
        · exact absurd h1.symm hhk
        · exact h1
      have : (h == k) = false := by simp [hhk]
      simpa [normalizeRow, rget, List.find?, this] using ih hkt

theorem normalizeRow_idem (hdr : List String) (r : Row) :
    normalizeRow hdr (normalizeRow hdr r) = normalizeRow hdr r := by
  show hdr.map (fun k => (k, rget (normalizeRow hdr r) k))
      = hdr.map (fun k => (k, rget r k))
  refine List.map_congr_left (fun k hk => ?_)
  rw [rget_normalizeRow hdr r k hk]

theorem rget_freshRow_date (today : String) (n : EnrichedNote) :
    rget (freshRow today n) "date" = today := rfl

theorem rget_freshRow_key (today : String) (n : EnrichedNote) :
    rget (freshRow today n) "key" = n.key := by
  simp [freshRow, rget, List.find?]

theorem kept_rows_date_ne (file : Option CsvFile) (today : String) :
    ∀ r ∈ (read_csv_keep_except file today "date").1, rget r "date" ≠ today := by
  intro r hr
  match file with
  | none => simp [read_csv_keep_except] at hr
  | some f =>
    by_cases hd : "date" ∈ f.header
    · simp only [read_csv_keep_except, if_pos hd] at hr
      simpa using List.of_mem_filter hr
    · simp [read_csv_keep_except, if_neg hd] at hr

/-- C3: same-day reconciliation of the articles history is idempotent — a
second run of `save_articles_csv` for the same day with the same articles
reproduces the file of the first run exactly; after a run, the rows dated
today are precisely the fresh article rows (one per collected article, so
their count is constant across reruns and, when the article keys are
distinct, no `(date, key)` pair repeats among them), and the rows of other
dates are exactly the retained historical rows. -/
theorem articles_history_idempotent (today : String)
    (articles : List EnrichedNote) (file : Option CsvFile)
    (hk : (articles.map EnrichedNote.key).Nodup) :
    save_articles_csv today articles (some (save_articles_csv today articles file))
        = save_articles_csv today articles file
      ∧ (save_articles_csv today articles file).rows.filter
            (fun r => rget r "date" == today) = articles.map (freshRow today)
      ∧ (save_articles_csv today articles file).rows.filter
            (fun r => rget r "date" != today)
          = ((read_csv_keep_except file today "date").1).map
              (normalizeRow ARTICLES_HEADER)
      ∧ (((save_articles_csv today articles file).rows.filter
            (fun r => rget r "date" == today)).map
          (fun r => (rget r "date", rget r "key"))).Nodup := by
  have hdate_mem : "date" ∈ ARTICLES_HEADER := by decide
  have hE : ∀ e ∈ ((read_csv_keep_except file today "date").1).map
      (normalizeRow ARTICLES_HEADER), rget e "date" ≠ today := by
    intro e he
    obtain ⟨r, hr, rfl⟩ := List.mem_map.mp he
    rw [rget_normalizeRow _ _ _ hdate_mem]
    exact kept_rows_date_ne file today r hr
  have hF : ∀ fr ∈ articles.map (freshRow today), rget fr "date" = today := by
    intro fr hfr
    obtain ⟨n, _, rfl⟩ := List.mem_map.mp hfr
    exact rget_freshRow_date today n
  have hfilter_ne : (save_articles_csv today articles file).rows.filter
      (fun r => rget r "date" != today)
        = ((read_csv_keep_except file today "date").1).map
            (normalizeRow ARTICLES_HEADER) := by
    simp only [save_articles_csv]
    rw [List.filter_append,
      List.filter_eq_self.mpr (fun a ha => by simpa using hE a ha),
      List.filter_eq_nil_iff.mpr (fun a ha => by simpa using hF a ha),
      List.append_nil]
  have hfilter_eq : (save_articles_csv today articles file).rows.filter
      (fun r => rget r "date" == today) = articles.map (freshRow today) := by
    simp only [save_articles_csv]
    rw [List.filter_append,
      List.filter_eq_nil_iff.mpr (fun a ha => by simpa using hE a ha),
      List.filter_eq_self.mpr (fun a ha => by simpa using hF a ha),
      List.nil_append]
  refine ⟨?_, hfilter_eq, hfilter_ne, ?_⟩
  · show CsvFile.mk _ _ = CsvFile.mk _ _
    congr 1
    have hread : (read_csv_keep_except
        (some (save_articles_csv today articles file)) today "date").1
          = ((read_csv_keep_except file today "date").1).map
              (normalizeRow ARTICLES_HEADER) := by
      simp only [read_csv_keep_except, if_pos hdate_mem]
      exact hfilter_ne
    have hcomp : List.map (normalizeRow ARTICLES_HEADER ∘ normalizeRow ARTICLES_HEADER)
        (read_csv_keep_except file today "date").1
          = List.map (normalizeRow ARTICLES_HEADER)
              (read_csv_keep_except file today "date").1 :=
      List.map_congr_left (fun r _ => normalizeRow_idem ARTICLES_HEADER r)
    rw [hread, List.map_map, hcomp]
  · rw [hfilter_eq]
    have : (articles.map (freshRow today)).map
        (fun r => (rget r "date", rget r "key"))
          = (articles.map EnrichedNote.key).map (fun k => (today, k)) := by
      rw [List.map_map, List.map_map]
      refine List.map_congr_left (fun n _ => ?_)
      simp [rget_freshRow_date, rget_freshRow_key]
    rw [this]
    exact hk.map (fun a b hab => by simpa using hab)

/-- A sample enriched article used by the `C3` witness run. -/
def sampleNote : EnrichedNote :=
  { id := 1, key := "n0a1", name := "t", published_at := "2024-01-01T00:00:00+09:00",
    created_at := "", updated_at := "", age_days := some 7,
    read_count := 10, like_count := 2, comment_count := 0 }

/-- Witness for `articles_history_idempotent` at a concrete one-article run
starting from no prior file. -/
theorem articles_history_idempotent_witness :
    save_articles_csv "2024-01-08" [sampleNote]
        (some (save_articles_csv "2024-01-08" [sampleNote] none))
        = save_articles_csv "2024-01-08" [sampleNote] none
      ∧ (save_articles_csv "2024-01-08" [sampleNote] none).rows.filter
            (fun r => rget r "date" == "2024-01-08")
          = [sampleNote].map (freshRow "2024-01-08")
      ∧ (save_articles_csv "2024-01-08" [sampleNote] none).rows.filter
            (fun r => rget r "date" != "2024-01-08")
          = ((read_csv_keep_except none "2024-01-08" "date").1).map
              (normalizeRow ARTICLES_HEADER)
      ∧ (((save_articles_csv "2024-01-08" [sampleNote] none).rows.filter
            (fun r => rget r "date" == "2024-01-08")).map
          (fun r => (rget r "date", rget r "key"))).Nodup :=
  articles_history_idempotent "2024-01-08" [sampleNote] none (by decide)

/-- The header of a stored file from an older iteration of the script: it
contains the `date` column but is not the eleven-column `ARTICLES_HEADER`. -/
def oddHeader : List String := ["date", "views"]

/-- A historical row stored under `oddHeader`. -/
def oddRow : Row := [("date", "2024-01-01"), ("views", "5")]

/-- C4 (counterexample): a stored file whose header is `["date", "views"]` —
which does not match the expected eleven-column `ARTICLES_HEADER` — is NOT
treated as absent: `_read_csv_keep_except` reports it valid and retains its
row, so the claim that any header mismatch discards the old rows is false. -/
theorem header_mismatch_not_discarded :
    oddHeader ≠ ARTICLES_HEADER
      ∧ read_csv_keep_except (some ⟨oddHeader, [oddRow]⟩) "2024-01-08" "date"
          = ([oddRow], true)
      ∧ (save_articles_csv "2024-01-08" []
          (some ⟨oddHeader, [oddRow]⟩)).rows ≠ [] := by
  refine ⟨by decide, by decide, by decide⟩

/-- C4 (amended): the reconciliation writer starts fresh exactly when the
stored header lacks the `date` column — then the old rows are discarded and
the rewritten file holds only today's rows; when the header does contain
`date` (even if it otherwise differs from `ARTICLES_HEADER`), the file is
accepted and its other-day rows are retained, normalised to the expected
schema with missing fields empty. -/
theorem header_migration (today : String) (articles : List EnrichedNote)
    (f : CsvFile) :
    ("date" ∉ f.header →
        read_csv_keep_except (some f) today "date" = ([], false)
          ∧ save_articles_csv today articles (some f)
              = ⟨ARTICLES_HEADER, articles.map (freshRow today)⟩)
      ∧ ("date" ∈ f.header →
          read_csv_keep_except (some f) today "date"
              = (f.rows.filter (fun r => rget r "date" != today), true)
            ∧ (save_articles_csv today articles (some f)).rows
                = (f.rows.filter (fun r => rget r "date" != today)).map
                    (normalizeRow ARTICLES_HEADER)
                  ++ articles.map (freshRow today)) := by
  constructor
  · intro hd
    have hread : read_csv_keep_except (some f) today "date" = ([], false) := by
      simp [read_csv_keep_except, hd]
    refine ⟨hread, ?_⟩
    show CsvFile.mk _ _ = _
    rw [hread]
    simp
  · intro hd
    have hread : read_csv_keep_except (some f) today "date"
        = (f.rows.filter (fun r => rget r "date" != today), true) := by
      simp [read_csv_keep_except, hd]
    exact ⟨hread, by rw [show (save_articles_csv today articles (some f)).rows
      = ((read_csv_keep_except (some f) today "date").1).map
          (normalizeRow ARTICLES_HEADER) ++ articles.map (freshRow today) from rfl,
      hread]⟩

/-- Witness for `header_migration`: the `oddHeader` file is accepted (its
`date` column exists) and its old row is retained, normalised. -/
theorem header_migration_witness :
    read_csv_keep_except (some ⟨oddHeader, [oddRow]⟩) "2024-01-08" "date"
        = ([oddRow].filter (fun r => rget r "date" != "2024-01-08"), true)
      ∧ (save_articles_csv "2024-01-08" [] (some ⟨oddHeader, [oddRow]⟩)).rows
          = ([oddRow].filter (fun r => rget r "date" != "2024-01-08")).map
              (normalizeRow ARTICLES_HEADER)
            ++ ([] : List EnrichedNote).map (freshRow "2024-01-08") :=
  (header_migration "2024-01-08" [] ⟨oddHeader, [oddRow]⟩).2 (by decide)

/-! ### Daily summary (`save_daily_summary_csv`, lines 368-438)

The metric computation is modelled over `ℚ`: the claims at stake concern
division guards and the choice of reference row, which are exact in the
rationals; the concrete cells this program writes (`total_pv` etc. and
`round(x, 2)` results) are likewise exactly representable. -/

/-- Numeric value of a digit string (most significant first). -/
def digitsVal (cs : List Char) : Nat :=
  cs.foldl (fun acc c => acc * 10 + (c.toNat - 48)) 0

/-- Python `float(s)` on the decimal forms this program writes (optional
sign, digits, optional fractional part); `none` models `ValueError`. -/
def parsePyFloat (s : String) : Option ℚ :=
  let p : (List Char) → Option ℚ := fun cs =>
    let intPart := cs.takeWhile Char.isDigit
    let rest := cs.dropWhile Char.isDigit
    match rest with
    | [] =>
      if intPart = [] then none else some (digitsVal intPart)
    | '.' :: frac =>
      if frac.all Char.isDigit ∧ (intPart ≠ [] ∨ frac ≠ []) then
        some ((digitsVal intPart : ℚ)
          + (digitsVal frac : ℚ) / (10 : ℚ) ^ frac.length)
      else none
    | _ => none
  match s.toList with
  | '-' :: t => (p t).map Neg.neg
  | '+' :: t => p t
  | t => p t

/-- `float(last.get(k) or 0)`: a missing or empty cell is `0`; a nonempty
cell is parsed, `none` modelling the `ValueError` branch. -/
def fieldVal (r : Row) (k : String) : Option ℚ :=
  let v := rget r k
  if v = "" then some 0 else parsePyFloat v

/-- The like-rate metric: `(total_like / total_pv * 100) if total_pv > 0
else 0`. -/
def like_rate (total_pv total_like : Int) : ℚ :=
  if total_pv > 0 then (total_like : ℚ) / (total_pv : ℚ) * 100 else 0

/-- The day-over-day percentage deltas of `save_daily_summary_csv`: rows
dated today are excluded, the last remaining row is the reference, and each
delta is guarded by `reference > 0`; no reference row, or any unparsable
reference cell, leaves all three deltas at `0`. -/
def summary_deltas (total_pv total_like : Int) (l_rate : ℚ)
    (rows : List Row) (today_slash : String) : ℚ × ℚ × ℚ :=
  let non_today := rows.filter (fun r => rget r "日付" != today_slash)
  match non_today.getLast? with
  | none => (0, 0, 0)
  | some last =>
    match fieldVal last "ビュー合計", fieldVal last "スキ合計",
        fieldVal last "スキ率(%)" with
    | some p_v, some p_l, some p_r =>
      (if p_v > 0 then ((total_pv : ℚ) - p_v) / p_v * 100 else 0,
       if p_l > 0 then ((total_like : ℚ) - p_l) / p_l * 100 else 0,
       if p_r > 0 then (l_rate - p_r) / p_r * 100 else 0)
    | _, _, _ => (0, 0, 0)

/-- The six computed metrics of today's summary row. -/
structure SummaryMetrics where
  v_per_a : ℚ
  l_per_a : ℚ
  l_rate : ℚ
  v_change : ℚ
  l_change : ℚ
  r_change : ℚ
  deriving DecidableEq

/-- The metric computation of `save_daily_summary_csv`, taking the parsed
rows of an existing file whose header contains `日付` (pass `[]` for an
absent or legacy-format file, which skips the delta computation). -/
def summary_metrics (total_pv total_like article_count : Int)
    (rows : List Row) (today_slash : String) : SummaryMetrics :=
  { v_per_a := if article_count > 0 then (total_pv : ℚ) / (article_count : ℚ) else 0
    l_per_a := if article_count > 0 then (total_like : ℚ) / (article_count : ℚ) else 0
    l_rate := like_rate total_pv total_like
    v_change := (summary_deltas total_pv total_like
      (like_rate total_pv total_like) rows today_slash).1
    l_change := (summary_deltas total_pv total_like
      (like_rate total_pv total_like) rows today_slash).2.1
    r_change := (summary_deltas total_pv total_like
      (like_rate total_pv total_like) rows today_slash).2.2 }

theorem summary_deltas_filter_self (total_pv total_like : Int) (l_rate : ℚ)
    (rows : List Row) (today_slash : String) :
    summary_deltas total_pv total_like l_rate
        (rows.filter (fun r => rget r "日付" != today_slash)) today_slash
      = summary_deltas total_pv total_like l_rate rows today_slash := by
  unfold summary_deltas
  rw [List.filter_eq_self.mpr (fun a ha => (List.mem_filter.mp ha).2)]

/-- C7: the deltas of today's summary row are computed against the last
remaining row after excluding every row dated today — same-day rows being
replaced never serve as the reference, the whole computation coincides with
one over the history stripped of today's rows, and it coincides with a
computation over the reference row alone; when no row remains after the
exclusion, all three deltas are `0`. -/
theorem summary_delta_reference (total_pv total_like article_count : Int)
    (rows : List Row) (today_slash : String) :
    summary_metrics total_pv total_like article_count rows today_slash
        = summary_metrics total_pv total_like article_count
            (rows.filter (fun r => rget r "日付" != today_slash)) today_slash
      ∧ (rows.filter (fun r => rget r "日付" != today_slash) = [] →
          (summary_metrics total_pv total_like article_count rows today_slash).v_change = 0
            ∧ (summary_metrics total_pv total_like article_count rows today_slash).l_change = 0
            ∧ (summary_metrics total_pv total_like article_count rows today_slash).r_change = 0)
      ∧ (∀ last, (rows.filter (fun r => rget r "日付" != today_slash)).getLast?
            = some last →
          summary_metrics total_pv total_like article_count rows today_slash
            = summary_metrics total_pv total_like article_count [last] today_slash) := by
  refine ⟨?_, ?_, ?_⟩
  · unfold summary_metrics
    rw [summary_deltas_filter_self]
  · intro hnil
    have hd : summary_deltas total_pv total_like
        (like_rate total_pv total_like) rows today_slash = (0, 0, 0) := by
      unfold summary_deltas
      rw [hnil]
      rfl
    unfold summary_metrics
    rw [hd]
    exact ⟨rfl, rfl, rfl⟩
  · intro last hget
    have hmem : last ∈ rows.filter (fun r => rget r "日付" != today_slash) := by
      obtain ⟨hne, heq⟩ := List.mem_getLast?_eq_getLast (Option.mem_def.mpr hget)
      rw [heq]
      exact List.getLast_mem hne
    have hlast_ne : (rget last "日付" != today_slash) = true :=
      (List.mem_filter.mp hmem).2
    have hone : ([last] : List Row).filter
        (fun r => rget r "日付" != today_slash) = [last] := by
      simp [List.filter, hlast_ne]
    have hd : ∀ l_rate : ℚ, summary_deltas total_pv total_like l_rate rows today_slash
        = summary_deltas total_pv total_like l_rate [last] today_slash := by
      intro l_rate
      simp only [summary_deltas]
      rw [hget, hone, List.getLast?_singleton]
    unfold summary_metrics
    rw [hd]

/-- A reference row for the `C7` witness: an earlier recorded day. -/
def priorDayRow : Row :=
  [("日付", "2024/01/05"), ("ビュー合計", "100"), ("スキ合計", "10"),
   ("スキ率(%)", "10.0")]

/-- A same-day row being replaced, for the `C7` witness. -/
def sameDayRow : Row :=
  [("日付", "2024/01/08"), ("ビュー合計", "999"), ("スキ合計", "99"),
   ("スキ率(%)", "9.9")]

/-- Witness for `summary_delta_reference`: with a history holding an earlier
day's row and a same-day row, the metrics coincide with those computed
against the earlier row alone. -/
theorem summary_delta_reference_witness :
    summary_metrics 150 30 3 [priorDayRow, sameDayRow] "2024/01/08"
      = summary_metrics 150 30 3 [priorDayRow] "2024/01/08" :=
  (summary_delta_reference 150 30 3 [priorDayRow, sameDayRow] "2024/01/08").2.2
    priorDayRow (by decide)

/-- C8: every summary ratio is division-guarded — the like rate is
`likes / views * 100` exactly when views are positive and `0` otherwise, the
per-article averages are `0` unless the article count is positive, and each
day-over-day percentage delta is `0` whenever its reference value is not
positive (in particular when the reference cell is `0`, empty or absent) or
no reference row remains. -/
theorem summary_division_guards (total_pv total_like article_count : Int)
    (rows : List Row) (today_slash : String) :
    (total_pv ≤ 0 →
        (summary_metrics total_pv total_like article_count rows today_slash).l_rate = 0)
      ∧ (total_pv > 0 →
          (summary_metrics total_pv total_like article_count rows today_slash).l_rate
            = (total_like : ℚ) / (total_pv : ℚ) * 100)
      ∧ (article_count ≤ 0 →
          (summary_metrics total_pv total_like article_count rows today_slash).v_per_a = 0
            ∧ (summary_metrics total_pv total_like article_count rows today_slash).l_per_a = 0)
      ∧ (rows.filter (fun r => rget r "日付" != today_slash) = [] →
          (summary_metrics total_pv total_like article_count rows today_slash).v_change = 0
            ∧ (summary_metrics total_pv total_like article_count rows today_slash).l_change = 0
            ∧ (summary_metrics total_pv total_like article_count rows today_slash).r_change = 0)
      ∧ (∀ last, (rows.filter (fun r => rget r "日付" != today_slash)).getLast?
            = some last →
          ∀ p_v p_l p_r : ℚ, fieldVal last "ビュー合計" = some p_v →
            fieldVal last "スキ合計" = some p_l →
            fieldVal last "スキ率(%)" = some p_r →
            (p_v ≤ 0 →
              (summary_metrics total_pv total_like article_count rows today_slash).v_change = 0)
              ∧ (p_l ≤ 0 →
                (summary_metrics total_pv total_like article_count rows today_slash).l_change = 0)
              ∧ (p_r ≤ 0 →
                (summary_metrics total_pv total_like article_count rows today_slash).r_change = 0)) := by
  have hguard : ∀ q : ℚ, ¬ (0 : ℚ) < q ↔ q ≤ 0 := fun q => not_lt
  refine ⟨?_, ?_, ?_, ?_, ?_⟩
  · intro h
    simp only [summary_metrics, like_rate]
    rw [if_neg (by exact fun hc => absurd h (not_le.mpr hc))]
  · intro h
    simp only [summary_metrics, like_rate]
    rw [if_pos h]
  · intro h
    constructor
    · simp only [summary_metrics]
      rw [if_neg (by exact fun hc => absurd h (not_le.mpr hc))]
    · simp only [summary_metrics]
      rw [if_neg (by exact fun hc => absurd h (not_le.mpr hc))]
  · intro hnil
    have hd : summary_deltas total_pv total_like
        (like_rate total_pv total_like) rows today_slash = (0, 0, 0) := by
      simp only [summary_deltas]
      rw [hnil]
      rfl
    simp only [summary_metrics]
    rw [hd]
    exact ⟨rfl, rfl, rfl⟩
  · intro last hget p_v p_l p_r hv hl hr
    have hd : summary_deltas total_pv total_like
        (like_rate total_pv total_like) rows today_slash
          = (if p_v > 0 then ((total_pv : ℚ) - p_v) / p_v * 100 else 0,
             if p_l > 0 then ((total_like : ℚ) - p_l) / p_l * 100 else 0,
             if p_r > 0 then (like_rate total_pv total_like - p_r) / p_r * 100 else 0) := by
      simp only [summary_deltas]
      rw [hget]
      dsimp only
      rw [hv, hl, hr]
    refine ⟨?_, ?_, ?_⟩
    · intro hle
      simp only [summary_metrics]
      rw [hd]
      exact if_neg (fun hc => absurd hle (not_le.mpr hc))
    · intro hle
      simp only [summary_metrics]
      rw [hd]
      exact if_neg (fun hc => absurd hle (not_le.mpr hc))
    · intro hle
      simp only [summary_metrics]
      rw [hd]
      exact if_neg (fun hc => absurd hle (not_le.mpr hc))

/-- A reference row whose stored totals are all zero, for the `C8` witness. -/
def zeroTotalsRow : Row :=
  [("日付", "2024/01/05"), ("ビュー合計", "0"), ("スキ合計", "0"),
   ("スキ率(%)", "0")]

/-- Witness for `summary_division_guards`: `total_like = 20, total_pv = 200`
gives like-rate `10.0`; zero views give like-rate `0`; a zero article count
gives zero per-article averages; zero reference values give zero deltas. -/
theorem summary_division_guards_witness :
    (summary_metrics 200 20 5 [] "2024/01/08").l_rate = 10
      ∧ (summary_metrics 0 20 0 [] "2024/01/08").l_rate = 0
      ∧ (summary_metrics 0 20 0 [] "2024/01/08").v_per_a = 0
      ∧ (summary_metrics 200 20 5 [zeroTotalsRow] "2024/01/08").v_change = 0 := by
  have h1 := (summary_division_guards 200 20 5 [] "2024/01/08").2.1 (by norm_num)
  have h2 := (summary_division_guards 0 20 0 [] "2024/01/08").1 le_rfl
  have h3 := ((summary_division_guards 0 20 0 [] "2024/01/08").2.2.1 le_rfl).1
  have h4 := ((summary_division_guards 200 20 5 [zeroTotalsRow] "2024/01/08").2.2.2.2
    zeroTotalsRow (by decide) 0 0 0 (by decide) (by decide) (by decide)).1 le_rfl
  refine ⟨?_, h2, h3, h4⟩
  rw [h1]
  norm_num

/-! ### Follower history (`save_followers_csv`, lines 441-490) -/

/-- The header of the follower-history file. -/
def FOLLOWERS_HEADER : List String := ["日付", "時刻", "フォロワー数"]

/-- On-disk state of the follower-history file: absent, existing but empty
(zero bytes), or a header row plus data rows kept as positional cell
lists. -/
inductive FState where
  | absent
  | emptyFile
  | file (header : List String) (rows : List (List String))
  deriving DecidableEq

/-- The cell of a positional row under a named column, as `csv.DictReader`
resolves it (empty when the column or the cell is missing). -/
def cellAt (header : List String) (row : List String) (col : String) : String :=
  match header.indexOf? col with
  | some i => row.getD i ""
  | none => ""

/-- `val.replace(",", "")`. -/
def stripCommas (s : String) : String :=
  ⟨s.toList.filter (fun c => c != ',')⟩

/-- Python `val.strip()`: drop leading and trailing whitespace. -/
def pyStrip (s : String) : String :=
  ⟨((s.toList.dropWhile Char.isWhitespace).reverse.dropWhile
      Char.isWhitespace).reverse⟩

/-- Python `int(s)` on optionally signed digit strings; `none` models
`ValueError`. -/
def parsePyInt (s : String) : Option Int :=
  let digits : List Char → Option Int := fun cs =>
    if cs ≠ [] ∧ cs.all Char.isDigit then some (digitsVal cs) else none
  match s.toList with
  | '-' :: t => (digits t).map Neg.neg
  | '+' :: t => digits t
  | t => digits t

/-- The last recorded follower count: scan the rows from the end for the
first non-empty `フォロワー数` cell and parse it (`none` when the file has
no usable header, no such cell, or the cell fails to parse). -/
def lastFollowerCount : FState → Option Int
  | .file header rows =>
    if "フォロワー数" ∈ header then
      match rows.reverse.find?
          (fun r => pyStrip (cellAt header r "フォロワー数") != "") with
      | some r => parsePyInt (stripCommas (pyStrip (cellAt header r "フォロワー数")))
      | none => none
    else none
  | _ => none

/-- `save_followers_csv`: skip entirely when the count was not obtained;
skip when the observed count equals the last recorded one; otherwise append
one row (writing the header first when the file is absent or empty). -/
def save_followers_csv (follower_count : Option Int)
    (date_str time_str : String) (st : FState) : FState :=
  match follower_count with
  | none => st
  | some n =>
    if lastFollowerCount st = some n then st
    else
      match st with
      | .absent => .file FOLLOWERS_HEADER [[date_str, time_str, toString n]]
      | .emptyFile => .file FOLLOWERS_HEADER [[date_str, time_str, toString n]]
      | .file h rows => .file h (rows ++ [[date_str, time_str, toString n]])

/-- The data rows of a follower-history file state. -/
def frows : FState → List (List String)
  | .file _ rows => rows
  | _ => []

/-- C9: follower-history change suppression — an unobtained count (`None`)
leaves the file state entirely unchanged; an observed count equal to the
last recorded non-empty count (scanned from the end) writes nothing; and in
every other case (including when no prior count exists) exactly one row with
the current date, time and count is appended after the unchanged prior
rows. -/
theorem follower_change_suppression (st : FState) (n : Int)
    (date_str time_str : String) :
    save_followers_csv none date_str time_str st = st
      ∧ (lastFollowerCount st = some n →
          save_followers_csv (some n) date_str time_str st = st)
      ∧ (lastFollowerCount st ≠ some n →
          frows (save_followers_csv (some n) date_str time_str st)
            = frows st ++ [[date_str, time_str, toString n]]) := by
  refine ⟨rfl, ?_, ?_⟩
  · intro h
    simp [save_followers_csv, h]
  · intro h
    cases st with
    | absent => simp [save_followers_csv, lastFollowerCount, frows]
    | emptyFile => simp [save_followers_csv, lastFollowerCount, frows]
    | file header rows => simp [save_followers_csv, if_neg h, frows]

/-- A follower-history row recording a count of 120, for the `C9` witness. -/
def followerRow120 : List String := ["2024/01/01", "09:00:00", "120"]

/-- Witness for `follower_change_suppression`: with `120` last recorded,
observing `120` writes nothing and observing `121` appends exactly one
row. -/
theorem follower_change_suppression_witness :
    save_followers_csv (some 120) "2024/01/08" "09:00:00"
        (.file FOLLOWERS_HEADER [followerRow120])
        = .file FOLLOWERS_HEADER [followerRow120]
      ∧ frows (save_followers_csv (some 121) "2024/01/08" "09:00:00"
          (.file FOLLOWERS_HEADER [followerRow120]))
        = [followerRow120] ++ [["2024/01/08", "09:00:00", toString (121 : Int)]] :=
  ⟨(follower_change_suppression (.file FOLLOWERS_HEADER [followerRow120]) 120
      "2024/01/08" "09:00:00").2.1 (by decide),
   (follower_change_suppression (.file FOLLOWERS_HEADER [followerRow120]) 121
      "2024/01/08" "09:00:00").2.2 (by decide)⟩

end NoteStats
